import Mathlib

/-!
# Verification of `src/third_party/txt/src/skia/paragraph_skia.cc`

Shallow embedding of the paragraph adapter that bridges the Skia text-layout
library (`skia::textlayout`, abbreviated `skt`) and the flutter display-list
rendering pipeline.  Each definition mirrors the C++ source function of the
same name; comments cite the source lines.

Modelling conventions:
* `SkScalar` (a 32-bit IEEE float in the source) is modelled as `ℚ`.  Every
  scalar in this file is only copied, compared to `0`, or widened to `double`
  (`SkScalarToDouble` is the exact, value-preserving `static_cast<double>`),
  so rational numbers are a faithful model of the data flow and keep equality
  decidable.
* C++ `int` division truncates towards zero; it is modelled with `Int.tdiv`.
* `std::variant<SkPaint, PaintID>` is modelled as a sum type; `std::get` on
  the wrong alternative (which throws `std::bad_variant_access`) and the
  unchecked `std::vector::operator[]` out of range (undefined behaviour) are
  modelled as distinct `Except` errors, as is a failing `FML_DCHECK`.
* Mutation of `ParagraphSkia` members is modelled by explicit state passing;
  a ghost counter `metricsQueries` counts calls of the wrapped paragraph's
  `getLineMetrics`, so "does not query the wrapped paragraph again" becomes a
  provable statement.
-/

namespace ParagraphSkiaCc

/-- `SkScalar` (32-bit float in the source), modelled as `ℚ`. -/
abbrev SkScalar : Type := ℚ

/-- 32-bit ARGB color value (`SkColor` / `DlColor`). -/
abbrev SkColor : Type := ℕ

/-- `SkScalarToDouble`: `static_cast<double>` of a float, which is exact and
value-preserving; modelled as the identity on the rational model. -/
def SkScalarToDouble (s : SkScalar) : ℚ := s

/-- `SkFontStyle::Slant` (SkFontStyle.h): upright, italic, oblique. -/
inductive Slant : Type
  | kUpright_Slant
  | kItalic_Slant
  | kOblique_Slant
  deriving DecidableEq, Repr

/-- `txt::FontWeight`: nine named weights with ordinal values 0 through 8
(`w100 = 0`, ..., `w900 = 8`). -/
inductive FontWeight : Type
  | w100 | w200 | w300 | w400 | w500 | w600 | w700 | w800 | w900
  deriving DecidableEq, Repr

/-- The underlying integer of a `txt::FontWeight` enumerator
(`static_cast<int>`). -/
def FontWeight.toInt : FontWeight → Int
  | .w100 => 0
  | .w200 => 1
  | .w300 => 2
  | .w400 => 3
  | .w500 => 4
  | .w600 => 5
  | .w700 => 6
  | .w800 => 7
  | .w900 => 8

/-- `static_cast<txt::FontWeight>` of an integer.  The source only ever casts
values already clamped into `[0, 8]`; values outside that range are mapped to
`w100` here but are never produced by the code below. -/
def FontWeight.ofInt (i : Int) : FontWeight :=
  if i = 1 then .w200
  else if i = 2 then .w300
  else if i = 3 then .w400
  else if i = 4 then .w500
  else if i = 5 then .w600
  else if i = 6 then .w700
  else if i = 7 then .w800
  else if i = 8 then .w900
  else .w100

/-- `txt::FontStyle`: the two-valued style enum. -/
inductive FontStyle : Type
  | normal
  | italic
  deriving DecidableEq, Repr

/-- `std::clamp(v, lo, hi)`: `lo` if `v < lo`, `hi` if `hi < v`, else `v`. -/
def stdClamp (v lo hi : Int) : Int :=
  if v < lo then lo else if hi < v then hi else v

/-- `GetTxtFontWeight` (paragraph_skia.cc lines 33-38): convert an
`SkFontStyle::Weight` value (100-900 scale) to a `txt::FontWeight`
(0-8 ordinal scale).  C++ `/` on `int` truncates towards zero (`Int.tdiv`). -/
def GetTxtFontWeight (font_weight : Int) : FontWeight :=
  let txt_weight : Int := (font_weight - 100).tdiv 100
  let txt_weight : Int :=
    stdClamp txt_weight FontWeight.w100.toInt FontWeight.w900.toInt
  FontWeight.ofInt txt_weight

/-- `GetTxtFontStyle` (paragraph_skia.cc lines 40-44): upright maps to
`normal`, every other slant to `italic`. -/
def GetTxtFontStyle (font_slant : Slant) : FontStyle :=
  if font_slant = Slant.kUpright_Slant then FontStyle.normal
  else FontStyle.italic

end ParagraphSkiaCc

namespace ParagraphSkiaCc

/-! ## Painter-side data types -/

/-- An `sk_sp<SkTextBlob>` that is non-null; nullable blob arguments are
`Option SkTextBlob`.  The blob contents are opaque to this file. -/
structure SkTextBlob : Type where
  blobId : ℕ
  deriving DecidableEq, Repr

/-- `SkRect`: opaque to this file beyond being copied. -/
structure SkRect : Type where
  fLeft : SkScalar
  fTop : SkScalar
  fRight : SkScalar
  fBottom : SkScalar
  deriving DecidableEq, Repr

/-- `SkPath`: opaque to this file. -/
structure SkPath : Type where
  pathId : ℕ
  deriving DecidableEq, Repr

/-- `SkPoint` as built by `SkPoint::Make`. -/
structure SkPoint : Type where
  fX : SkScalar
  fY : SkScalar
  deriving DecidableEq, Repr

/-- `SkPaint`: an immediate paint description; opaque to this file (it is
only ever copied whole). -/
structure SkPaint : Type where
  paintData : ℕ
  deriving DecidableEq, Repr

/-- `skt::ParagraphPainter::PaintID`: an index into the pre-resolved paint
palette. -/
abbrev PaintID : Type := ℕ

/-- `skt::ParagraphPainter::SkPaintOrID`, a
`std::variant<SkPaint, PaintID>`: either an immediate paint description or an
index into the palette. -/
abbrev SkPaintOrID : Type := SkPaint ⊕ PaintID

/-- Failure modes of the embedded operations: `std::get` on a variant holding
the other alternative (`std::bad_variant_access`), a failing `FML_DCHECK`,
and out-of-range unchecked `std::vector::operator[]` (undefined behaviour,
with no assertion guarding it). -/
inductive PaintErr : Type
  | badVariantAccess
  | dcheckFailed
  | indexOutOfRange
  deriving DecidableEq, Repr

/-- `std::get<PaintID>` on an `SkPaintOrID`: throws (`badVariantAccess`) when
the variant holds an `SkPaint`. -/
def stdGetPaintID : SkPaintOrID → Except PaintErr PaintID
  | Sum.inl _ => Except.error PaintErr.badVariantAccess
  | Sum.inr paintId => Except.ok paintId

/-- Unchecked `std::vector::operator[]` on the paint palette (no `FML_DCHECK`
at the call site): out of range is undefined behaviour, modelled as the
`indexOutOfRange` error. -/
def vectorAt (paints : List α) (i : ℕ) : Except PaintErr α :=
  if h : i < paints.length then Except.ok (paints.get ⟨i, h⟩)
  else Except.error PaintErr.indexOutOfRange

/-- `DlDrawStyle`. -/
inductive DlDrawStyle : Type
  | kFill
  | kStroke
  deriving DecidableEq, Repr

/-- `DlDashPathEffect` as produced by `DlDashPathEffect::Make(intervals,
count, phase)`. -/
structure DlPathEffect : Type where
  intervals : List SkScalar
  phase : SkScalar
  deriving DecidableEq, Repr

/-- `DlDashPathEffect::Make`. -/
def DlDashPathEffect.Make (intervals : List SkScalar) (phase : SkScalar) :
    DlPathEffect :=
  ⟨intervals, phase⟩

/-- `SkBlurStyle` (only `kNormal_SkBlurStyle` is used here). -/
inductive SkBlurStyle : Type
  | kNormal_SkBlurStyle
  | kSolid_SkBlurStyle
  | kOuter_SkBlurStyle
  | kInner_SkBlurStyle
  deriving DecidableEq, Repr

/-- `DlBlurMaskFilter(style, sigma, respect_ctm)`. -/
structure DlBlurMaskFilter : Type where
  style : SkBlurStyle
  sigma : SkScalar
  respectCTM : Bool
  deriving DecidableEq, Repr

/-- `flutter::DlPaint` restricted to the attributes this file touches. -/
structure DlPaint : Type where
  drawStyle : DlDrawStyle
  antiAlias : Bool
  color : SkColor
  strokeWidth : SkScalar
  pathEffect : Option DlPathEffect
  maskFilter : Option DlBlurMaskFilter
  deriving DecidableEq, Repr

/-- The default-constructed `DlPaint()`: fill style, no anti-aliasing, opaque
black, hairline stroke width, no path effect, no mask filter. -/
def DlPaint.mkDefault : DlPaint :=
  ⟨DlDrawStyle.kFill, false, 0xFF000000, 0, none, none⟩

def DlPaint.setDrawStyle (p : DlPaint) (s : DlDrawStyle) : DlPaint :=
  { p with drawStyle := s }

def DlPaint.setAntiAlias (p : DlPaint) (b : Bool) : DlPaint :=
  { p with antiAlias := b }

def DlPaint.setColor (p : DlPaint) (c : SkColor) : DlPaint :=
  { p with color := c }

def DlPaint.setStrokeWidth (p : DlPaint) (w : SkScalar) : DlPaint :=
  { p with strokeWidth := w }

def DlPaint.setPathEffect (p : DlPaint) (e : DlPathEffect) : DlPaint :=
  { p with pathEffect := some e }

def DlPaint.setMaskFilter (p : DlPaint) (f : DlBlurMaskFilter) : DlPaint :=
  { p with maskFilter := some f }

/-- `skt::ParagraphPainter::DashPathEffect`: on-length and off-length of a
dash pattern. -/
structure DashPathEffect : Type where
  fOnLength : SkScalar
  fOffLength : SkScalar
  deriving DecidableEq, Repr

/-- `skt::ParagraphPainter::DecorationStyle` as observed by this file:
color, stroke width, and optional dash pattern. -/
structure DecorationStyle : Type where
  getColor : SkColor
  getStrokeWidth : SkScalar
  getDashPathEffect : Option DashPathEffect
  deriving DecidableEq, Repr

/-- `SkClipOp` (only `kIntersect` is used here). -/
inductive SkClipOp : Type
  | kDifference
  | kIntersect
  deriving DecidableEq, Repr

/-- One recorded command of the `DisplayListBuilder`.  The builder itself is
modelled as the list of commands issued to it, in order. -/
inductive DlOp : Type
  | drawTextBlob (blob : SkTextBlob) (x y : SkScalar) (paint : DlPaint)
  | drawRect (rect : SkRect) (paint : DlPaint)
  | drawPath (path : SkPath) (paint : DlPaint)
  | drawLine (p0 p1 : SkPoint) (paint : DlPaint)
  | clipRect (rect : SkRect) (op : SkClipOp) (isAA : Bool)
  | translate (dx dy : SkScalar)
  | save
  | restore
  deriving DecidableEq, Repr

/-- The `DisplayListBuilder`, modelled by its recorded command list. -/
abbrev DlBuilder : Type := List DlOp

namespace DisplayListParagraphPainter

/-- `DisplayListParagraphPainter::toDlPaint` (lines 52-68): build a `DlPaint`
from a `DecorationStyle`, with the given draw style (the C++ default argument
is `kStroke`), anti-aliasing on, the decoration's color and stroke width, and
a dash path effect exactly when the decoration carries one. -/
def toDlPaint (decor_style : DecorationStyle) (draw_style : DlDrawStyle) :
    DlPaint :=
  let paint := DlPaint.mkDefault
  let paint := paint.setDrawStyle draw_style
  let paint := paint.setAntiAlias true
  let paint := paint.setColor decor_style.getColor
  let paint := paint.setStrokeWidth decor_style.getStrokeWidth
  match decor_style.getDashPathEffect with
  | some dash_path_effect =>
      paint.setPathEffect
        (DlDashPathEffect.Make
          [dash_path_effect.fOnLength, dash_path_effect.fOffLength] 0)
  | none => paint

/-- `drawTextBlob` (lines 70-80): early return on a null blob; otherwise
`std::get<PaintID>` (only the palette-index alternative is handled),
`FML_DCHECK(paint_id < dl_paints_.size())`, and the blob is reissued to the
builder with the palette paint at that index. -/
def drawTextBlob (dl_paints : List DlPaint) (builder : DlBuilder)
    (blob : Option SkTextBlob) (x y : SkScalar) (paint : SkPaintOrID) :
    Except PaintErr DlBuilder :=
  match blob with
  | none => Except.ok builder
  | some b =>
    match stdGetPaintID paint with
    | Except.error e => Except.error e
    | Except.ok paint_id =>
        if h : paint_id < dl_paints.length then
          Except.ok (builder ++ [DlOp.drawTextBlob b x y (dl_paints.get ⟨paint_id, h⟩)])
        else Except.error PaintErr.dcheckFailed

/-- `drawTextShadow` (lines 82-98), the paint construction of lines 90-96:
default paint, the given shadow color, and a normal-style blur mask filter
exactly when `blur_sigma > 0.0`. -/
def drawTextShadowPaint (color : SkColor) (blur_sigma : SkScalar) : DlPaint :=
  let paint := DlPaint.mkDefault
  let paint := paint.setColor color
  if blur_sigma > 0 then
    paint.setMaskFilter (DlBlurMaskFilter.mk SkBlurStyle.kNormal_SkBlurStyle blur_sigma false)
  else paint

/-- `drawTextShadow` (lines 82-98): early return on a null blob; otherwise a
`drawTextBlob` command with the shadow paint is issued to the builder. -/
def drawTextShadow (builder : DlBuilder) (blob : Option SkTextBlob)
    (x y : SkScalar) (color : SkColor) (blur_sigma : SkScalar) : DlBuilder :=
  match blob with
  | none => builder
  | some b =>
      builder ++ [DlOp.drawTextBlob b x y (drawTextShadowPaint color blur_sigma)]

/-- `drawRect` (lines 100-104): `std::get<PaintID>` (no null check, no
immediate-paint handling), `FML_DCHECK` on the palette bound, reissue. -/
def drawRect (dl_paints : List DlPaint) (builder : DlBuilder)
    (rect : SkRect) (paint : SkPaintOrID) : Except PaintErr DlBuilder :=
  match stdGetPaintID paint with
  | Except.error e => Except.error e
  | Except.ok paint_id =>
      if h : paint_id < dl_paints.length then
        Except.ok (builder ++ [DlOp.drawRect rect (dl_paints.get ⟨paint_id, h⟩)])
      else Except.error PaintErr.dcheckFailed

/-- `drawFilledRect` (lines 106-110). -/
def drawFilledRect (builder : DlBuilder) (rect : SkRect)
    (decor_style : DecorationStyle) : DlBuilder :=
  let paint := toDlPaint decor_style DlDrawStyle.kFill
  builder ++ [DlOp.drawRect rect paint]

/-- `drawPath` (lines 112-115); `toDlPaint` is called with its default
argument `kStroke`. -/
def drawPath (builder : DlBuilder) (path : SkPath)
    (decor_style : DecorationStyle) : DlBuilder :=
  builder ++ [DlOp.drawPath path (toDlPaint decor_style DlDrawStyle.kStroke)]

/-- `drawLine` (lines 117-124). -/
def drawLine (builder : DlBuilder) (x0 y0 x1 y1 : SkScalar)
    (decor_style : DecorationStyle) : DlBuilder :=
  builder ++ [DlOp.drawLine (SkPoint.mk x0 y0) (SkPoint.mk x1 y1)
    (toDlPaint decor_style DlDrawStyle.kStroke)]

/-- `clipRect` (lines 126-128). -/
def clipRect (builder : DlBuilder) (rect : SkRect) : DlBuilder :=
  builder ++ [DlOp.clipRect rect SkClipOp.kIntersect false]

/-- `translate` (lines 130-132). -/
def translate (builder : DlBuilder) (dx dy : SkScalar) : DlBuilder :=
  builder ++ [DlOp.translate dx dy]

/-- `save` (line 134). -/
def save (builder : DlBuilder) : DlBuilder :=
  builder ++ [DlOp.save]

/-- `restore` (line 136). -/
def restore (builder : DlBuilder) : DlBuilder :=
  builder ++ [DlOp.restore]

end DisplayListParagraphPainter

/-! ## Text-style structs and `SkiaToTxt` -/

/-- `SkFontStyle` as observed here: an integer weight and a slant. -/
structure SkFontStyle : Type where
  weight : Int
  slant : Slant
  deriving DecidableEq, Repr

/-- `skt::TextShadow` fields read by `SkiaToTxt`. -/
structure SktTextShadow : Type where
  fOffset : SkPoint
  fBlurSigma : SkScalar
  fColor : SkColor
  deriving DecidableEq, Repr

/-- `skia::textlayout::TextStyle` as observed by `SkiaToTxt`: each field is
named for the getter that reads it.  Enum-valued fields whose values are only
`static_cast` between the two libraries (decoration type/style, baseline) are
modelled by their underlying integer.  `getBackgroundPaintOrID` is only
called under `hasBackground()` (likewise for the foreground), so the pair is
modelled as an `Option SkPaintOrID`. -/
structure SktTextStyle : Type where
  getColor : SkColor
  getDecorationType : ℕ
  getDecorationColor : SkColor
  getDecorationStyle : ℕ
  getDecorationThicknessMultiplier : SkScalar
  getFontStyle : SkFontStyle
  getTextBaseline : ℕ
  getFontFamilies : List String
  getFontSize : SkScalar
  getLetterSpacing : SkScalar
  getWordSpacing : SkScalar
  getHeight : SkScalar
  getLocale : String
  background : Option SkPaintOrID
  foreground : Option SkPaintOrID
  getShadows : List SktTextShadow
  deriving DecidableEq, Repr

/-- `txt::TextShadow`. -/
structure TxtTextShadow : Type where
  offset : SkPoint
  blur_sigma : SkScalar
  color : SkColor
  deriving DecidableEq, Repr

/-- `txt::TextStyle`, restricted to the fields `SkiaToTxt` assigns.
`background`/`foreground` (immediate `SkPaint`s) and
`background_dl`/`foreground_dl` (palette paints) are optional and empty in a
default-constructed style. -/
structure TextStyle : Type where
  color : SkColor
  decoration : ℕ
  decoration_color : SkColor
  decoration_style : ℕ
  decoration_thickness_multiplier : ℚ
  font_weight : FontWeight
  font_style : FontStyle
  text_baseline : ℕ
  font_families : List String
  font_size : ℚ
  letter_spacing : ℚ
  word_spacing : ℚ
  height : ℚ
  locale : String
  background : Option SkPaint
  background_dl : Option DlPaint
  foreground : Option SkPaint
  foreground_dl : Option DlPaint
  text_shadows : List TxtTextShadow
  deriving DecidableEq, Repr

/-- The two identical guarded blocks of `SkiaToTxt` (lines 302-310 and
311-319): under `hasBackground()` / `hasForeground()`, an immediate `SkPaint`
is copied into the optional `SkPaint` member, while a `PaintID` selects the
palette paint by unchecked `dl_paints_[...]` into the optional `DlPaint`
member; with no paint both members stay empty. -/
def convertPaintOrID (dl_paints : List DlPaint) :
    Option SkPaintOrID → Except PaintErr (Option SkPaint × Option DlPaint)
  | none => Except.ok (none, none)
  | some (Sum.inl p) => Except.ok (some p, none)
  | some (Sum.inr paintId) => do
      let dl ← vectorAt dl_paints paintId
      Except.ok (none, some dl)

/-- `ParagraphSkia::SkiaToTxt` (lines 277-331): field-by-field conversion of
a `skt::TextStyle` into a `txt::TextStyle`.  The only member of the enclosing
object it reads is the paint palette `dl_paints_`, passed here explicitly.
The palette lookups `dl_paints_[std::get<PaintID>(...)]` on lines 308 and 317
are unchecked `operator[]` accesses with no `FML_DCHECK`; an out-of-range
index is undefined behaviour (`vectorAt` error), not an assertion failure. -/
def SkiaToTxt (dl_paints : List DlPaint) (skia : SktTextStyle) :
    Except PaintErr TextStyle := do
  let bg ← convertPaintOrID dl_paints skia.background
  let fg ← convertPaintOrID dl_paints skia.foreground
  pure
    { color := skia.getColor
      decoration := skia.getDecorationType
      decoration_color := skia.getDecorationColor
      decoration_style := skia.getDecorationStyle
      decoration_thickness_multiplier :=
        SkScalarToDouble skia.getDecorationThicknessMultiplier
      font_weight := GetTxtFontWeight skia.getFontStyle.weight
      font_style := GetTxtFontStyle skia.getFontStyle.slant
      text_baseline := skia.getTextBaseline
      font_families := skia.getFontFamilies
      font_size := SkScalarToDouble skia.getFontSize
      letter_spacing := SkScalarToDouble skia.getLetterSpacing
      word_spacing := SkScalarToDouble skia.getWordSpacing
      height := SkScalarToDouble skia.getHeight
      locale := skia.getLocale
      background := bg.1
      background_dl := bg.2
      foreground := fg.1
      foreground_dl := fg.2
      text_shadows := skia.getShadows.map
        (fun s => TxtTextShadow.mk s.fOffset s.fBlurSigma s.fColor) }

/-! ## Line metrics and the `ParagraphSkia` wrapper state -/

/-- `SkFontMetrics`: opaque to this file (copied whole). -/
structure SkFontMetrics : Type where
  raw : ℕ
  deriving DecidableEq, Repr

/-- `skt::StyleMetrics`: a pointer to a `skt::TextStyle` plus font metrics.
The pointed-to style is modelled by value. -/
structure StyleMetrics : Type where
  text_style : SktTextStyle
  font_metrics : SkFontMetrics
  deriving DecidableEq, Repr

/-- `skt::LineMetrics` as read by `ParagraphSkia::GetLineMetrics`.
`fLineMetrics` (the per-run style map, keyed by run start index) is modelled
as an association list in iteration order. -/
structure SktLineMetrics : Type where
  fStartIndex : ℕ
  fEndIndex : ℕ
  fEndExcludingWhitespaces : ℕ
  fEndIncludingNewline : ℕ
  fHardBreak : Bool
  fAscent : SkScalar
  fDescent : SkScalar
  fUnscaledAscent : SkScalar
  fHeight : SkScalar
  fWidth : SkScalar
  fLeft : SkScalar
  fBaseline : SkScalar
  fLineNumber : ℕ
  fLineMetrics : List (ℕ × StyleMetrics)
  deriving DecidableEq, Repr

/-- `txt::RunMetrics`: the source stores `&line_metrics_styles_.back()`, a
pointer into the auxiliary style store; the pointer is modelled as the index
of that element in `line_metrics_styles_`. -/
structure RunMetrics : Type where
  text_style : ℕ
  font_metrics : SkFontMetrics
  deriving DecidableEq, Repr

/-- `txt::LineMetrics` as filled by `ParagraphSkia::GetLineMetrics`. -/
structure LineMetrics : Type where
  start_index : ℕ
  end_index : ℕ
  end_excluding_whitespace : ℕ
  end_including_newline : ℕ
  hard_break : Bool
  ascent : SkScalar
  descent : SkScalar
  unscaled_ascent : SkScalar
  height : SkScalar
  width : SkScalar
  left : SkScalar
  baseline : SkScalar
  line_number : ℕ
  run_metrics : List (ℕ × RunMetrics)
  deriving DecidableEq, Repr

/-- The inner loop of `GetLineMetrics` (lines 186-193): for each entry of
`skm.fLineMetrics`, convert its text style, push it onto
`line_metrics_styles_`, and record a `RunMetrics` holding the address (here:
index) of the just-pushed style together with the run's font metrics.
Returns the grown style store and the run-metrics entries of this line. -/
def convertRuns (dl_paints : List DlPaint) (styles : List TextStyle) :
    List (ℕ × StyleMetrics) →
    Except PaintErr (List TextStyle × List (ℕ × RunMetrics))
  | [] => Except.ok (styles, [])
  | (k, sk_style_metrics) :: rest => do
      let ts ← SkiaToTxt dl_paints sk_style_metrics.text_style
      let res ← convertRuns dl_paints (styles ++ [ts]) rest
      Except.ok (res.1,
        (k, RunMetrics.mk styles.length sk_style_metrics.font_metrics) :: res.2)

/-- The outer loop of `GetLineMetrics` (lines 173-194): convert each
`skt::LineMetrics` into a `txt::LineMetrics`, threading the shared style
store through all lines.  Returns the final style store and the line list. -/
def convertLines (dl_paints : List DlPaint) (styles : List TextStyle) :
    List SktLineMetrics →
    Except PaintErr (List TextStyle × List LineMetrics)
  | [] => Except.ok (styles, [])
  | skm :: rest => do
      let runs ← convertRuns dl_paints styles skm.fLineMetrics
      let txtm : LineMetrics :=
        { start_index := skm.fStartIndex
          end_index := skm.fEndIndex
          end_excluding_whitespace := skm.fEndExcludingWhitespaces
          end_including_newline := skm.fEndIncludingNewline
          hard_break := skm.fHardBreak
          ascent := skm.fAscent
          descent := skm.fDescent
          unscaled_ascent := skm.fUnscaledAscent
          height := skm.fHeight
          width := skm.fWidth
          left := skm.fLeft
          baseline := skm.fBaseline
          line_number := skm.fLineNumber
          run_metrics := runs.2 }
      let res ← convertLines dl_paints runs.1 rest
      Except.ok (res.1, txtm :: res.2)

/-- The interface of the wrapped, opaque `skt::Paragraph` object (of abstract
type `P`): the observations and the one mutator this file uses.  Each field
models the member function of the same name; `getLineMetrics` yields the
metrics the wrapped paragraph would report for its current layout. -/
structure SktParagraphApi (P : Type) : Type where
  getMaxWidth : P → SkScalar
  getHeight : P → SkScalar
  getLongestLine : P → SkScalar
  getMinIntrinsicWidth : P → SkScalar
  getMaxIntrinsicWidth : P → SkScalar
  getAlphabeticBaseline : P → SkScalar
  getIdeographicBaseline : P → SkScalar
  didExceedMaxLines : P → Bool
  getLineMetrics : P → List SktLineMetrics
  layout : P → ℚ → P

/-- The member state of a `ParagraphSkia` over a wrapped paragraph of type
`P`: the wrapped object, the paint palette, the metrics cache, and the
auxiliary style store.  `metricsQueries` is a ghost observation counting the
calls of the wrapped paragraph's `getLineMetrics`. -/
structure ParagraphSkia (P : Type) : Type where
  paragraph_ : P
  dl_paints_ : List DlPaint
  line_metrics_ : Option (List LineMetrics)
  line_metrics_styles_ : List TextStyle
  metricsQueries : ℕ

/-- The constructor `ParagraphSkia::ParagraphSkia` (lines 145-147): adopts
the paragraph and the palette; the cache members start empty. -/
def ParagraphSkia.create (paragraph : P) (dl_paints : List DlPaint) :
    ParagraphSkia P :=
  ⟨paragraph, dl_paints, none, [], 0⟩

/-- `ParagraphSkia::GetMaxWidth` (lines 149-151). -/
def ParagraphSkia.GetMaxWidth (api : SktParagraphApi P)
    (s : ParagraphSkia P) : ℚ × ParagraphSkia P :=
  (SkScalarToDouble (api.getMaxWidth s.paragraph_), s)

/-- `ParagraphSkia::GetHeight` (lines 153-155). -/
def ParagraphSkia.GetHeight (api : SktParagraphApi P)
    (s : ParagraphSkia P) : ℚ × ParagraphSkia P :=
  (SkScalarToDouble (api.getHeight s.paragraph_), s)

/-- `ParagraphSkia::GetLongestLine` (lines 157-159). -/
def ParagraphSkia.GetLongestLine (api : SktParagraphApi P)
    (s : ParagraphSkia P) : ℚ × ParagraphSkia P :=
  (SkScalarToDouble (api.getLongestLine s.paragraph_), s)

/-- `ParagraphSkia::GetLineMetrics` (lines 161-198): on a cache miss, query
the wrapped paragraph, convert every line (growing the auxiliary style
store), fill the cache, and return it; on a hit, return the cached metrics
with no other effect.  (The `reserve` call on lines 167-171 only
pre-allocates capacity and has no observable effect on the contents.) -/
def ParagraphSkia.GetLineMetrics (api : SktParagraphApi P)
    (s : ParagraphSkia P) :
    Except PaintErr (List LineMetrics × ParagraphSkia P) :=
  match s.line_metrics_ with
  | some cached => Except.ok (cached, s)
  | none => do
      let metrics := api.getLineMetrics s.paragraph_
      let res ← convertLines s.dl_paints_ s.line_metrics_styles_ metrics
      Except.ok (res.2,
        { s with
            line_metrics_ := some res.2
            line_metrics_styles_ := res.1
            metricsQueries := s.metricsQueries + 1 })

/-- `ParagraphSkia::GetMinIntrinsicWidth` (lines 200-202). -/
def ParagraphSkia.GetMinIntrinsicWidth (api : SktParagraphApi P)
    (s : ParagraphSkia P) : ℚ × ParagraphSkia P :=
  (SkScalarToDouble (api.getMinIntrinsicWidth s.paragraph_), s)

/-- `ParagraphSkia::GetMaxIntrinsicWidth` (lines 204-206). -/
def ParagraphSkia.GetMaxIntrinsicWidth (api : SktParagraphApi P)
    (s : ParagraphSkia P) : ℚ × ParagraphSkia P :=
  (SkScalarToDouble (api.getMaxIntrinsicWidth s.paragraph_), s)

/-- `ParagraphSkia::GetAlphabeticBaseline` (lines 208-210). -/
def ParagraphSkia.GetAlphabeticBaseline (api : SktParagraphApi P)
    (s : ParagraphSkia P) : ℚ × ParagraphSkia P :=
  (SkScalarToDouble (api.getAlphabeticBaseline s.paragraph_), s)

/-- `ParagraphSkia::GetIdeographicBaseline` (lines 212-214). -/
def ParagraphSkia.GetIdeographicBaseline (api : SktParagraphApi P)
    (s : ParagraphSkia P) : ℚ × ParagraphSkia P :=
  (SkScalarToDouble (api.getIdeographicBaseline s.paragraph_), s)

/-- `ParagraphSkia::Layout` (lines 220-224): reset the metrics cache, clear
the auxiliary style store, lay the wrapped paragraph out at the new width. -/
def ParagraphSkia.Layout (api : SktParagraphApi P) (s : ParagraphSkia P)
    (width : ℚ) : ParagraphSkia P :=
  { s with
      line_metrics_ := none
      line_metrics_styles_ := []
      paragraph_ := api.layout s.paragraph_ width }

/-- `ParagraphSkia::SkiaToTxt` as a member function (lines 277-331): its body
reads exactly one member, the palette `dl_paints_`, and writes none, so as a
state transformer it returns the state unchanged. -/
def ParagraphSkia.SkiaToTxtM (s : ParagraphSkia P) (skia : SktTextStyle) :
    Except PaintErr TextStyle × ParagraphSkia P :=
  (SkiaToTxt s.dl_paints_ skia, s)

/-! ## Theorems for claims C2 and C8 -/

theorem FontWeight.ofInt_toInt (v : Int) (h0 : 0 ≤ v) (h8 : v ≤ 8) :
    (FontWeight.ofInt v).toInt = v := by
  interval_cases v <;> rfl

theorem stdClamp_eq_min_max (v : Int) :
    stdClamp v 0 8 = min (max v 0) 8 := by
  simp only [stdClamp, min_def, max_def]
  split_ifs <;> omega

theorem stdClamp_mem (v : Int) : 0 ≤ stdClamp v 0 8 ∧ stdClamp v 0 8 ≤ 8 := by
  simp only [stdClamp]
  split_ifs <;> omega

/-- C2: `GetTxtFontWeight` returns the `FontWeight` whose ordinal value is
`clamp((font_weight - 100) / 100, 0, 8)` with truncating integer division;
weights in `[100, 900]` map to ordinal `(w - 100) / 100` (so 100 ↦ 0, ...,
900 ↦ 8), weights below 100 clamp to ordinal 0 (`w100`) and weights above
900 clamp to ordinal 8 (`w900`). -/
theorem getTxtFontWeight_spec (w : Int) :
    (GetTxtFontWeight w).toInt = min (max ((w - 100).tdiv 100) 0) 8 ∧
    (100 ≤ w → w ≤ 900 → (GetTxtFontWeight w).toInt = (w - 100).tdiv 100) ∧
    (w < 100 → GetTxtFontWeight w = FontWeight.w100) ∧
    (900 < w → GetTxtFontWeight w = FontWeight.w900) := by
  have hchar : (GetTxtFontWeight w).toInt = stdClamp ((w - 100).tdiv 100) 0 8 := by
    have hm := stdClamp_mem ((w - 100).tdiv 100)
    exact FontWeight.ofInt_toInt _ hm.1 hm.2
  refine ⟨by rw [hchar, stdClamp_eq_min_max], ?_, ?_, ?_⟩
  · intro h100 h900
    have hnn : (0 : Int) ≤ w - 100 := by omega
    have hed : (w - 100).tdiv 100 = (w - 100) / 100 :=
      Int.tdiv_eq_ediv hnn (by norm_num)
    have hlo : 0 ≤ (w - 100).tdiv 100 := Int.tdiv_nonneg hnn (by norm_num)
    have hhi : (w - 100).tdiv 100 ≤ 8 := by rw [hed]; omega
    rw [hchar]
    simp only [stdClamp]
    split_ifs <;> omega
  · intro hlt
    have hneg : (w - 100).tdiv 100 ≤ 0 := by
      have h1 : (w - 100).tdiv 100 = -((100 - w).tdiv 100) := by
        have h2 : w - 100 = -(100 - w) := by ring
        rw [h2, Int.neg_tdiv]
      have h3 : 0 ≤ (100 - w).tdiv 100 :=
        Int.tdiv_nonneg (by omega) (by norm_num)
      omega
    unfold GetTxtFontWeight
    simp only [FontWeight.toInt, stdClamp]
    split_ifs with h1 h2
    · rfl
    · omega
    · have hz : (w - 100).tdiv 100 = 0 := by omega
      rw [hz]; rfl
  · intro hgt
    have hnn : (0 : Int) ≤ w - 100 := by omega
    have hed : (w - 100).tdiv 100 = (w - 100) / 100 :=
      Int.tdiv_eq_ediv hnn (by norm_num)
    have hge : 8 ≤ (w - 100).tdiv 100 := by rw [hed]; omega
    unfold GetTxtFontWeight
    simp only [FontWeight.toInt, stdClamp]
    split_ifs with h1 h2
    · omega
    · rfl
    · have hz : (w - 100).tdiv 100 = 8 := by omega
      rw [hz]; rfl

/-- Witness for C2 at concrete inputs: weight 350 has ordinal 2 (`w300`),
weight 50 clamps to `w100`, weight 1000 clamps to `w900`. -/
theorem getTxtFontWeight_spec_witness :
    (GetTxtFontWeight 350).toInt = (350 - 100 : Int).tdiv 100 ∧
    GetTxtFontWeight 50 = FontWeight.w100 ∧
    GetTxtFontWeight 1000 = FontWeight.w900 :=
  ⟨(getTxtFontWeight_spec 350).2.1 (by decide) (by decide),
   (getTxtFontWeight_spec 50).2.2.1 (by decide),
   (getTxtFontWeight_spec 1000).2.2.2 (by decide)⟩

/-- C8: `GetTxtFontStyle` maps the upright slant to `FontStyle.normal` and
every other slant value (italic as well as oblique) to `FontStyle.italic`. -/
theorem getTxtFontStyle_spec :
    GetTxtFontStyle Slant.kUpright_Slant = FontStyle.normal ∧
    GetTxtFontStyle Slant.kItalic_Slant = FontStyle.italic ∧
    GetTxtFontStyle Slant.kOblique_Slant = FontStyle.italic := by
  decide

/-! ## Theorems for claims C3, C5, C10 -/

/-- Counterexample to C3: `drawTextBlob` does not handle the immediate-paint
alternative of `SkPaintOrID`.  With a non-null blob and an immediate
`SkPaint` argument, `std::get<PaintID>` fails (`std::bad_variant_access`) and
no primitive is reissued to the builder. -/
theorem drawTextBlob_skpaint_not_handled :
    DisplayListParagraphPainter.drawTextBlob [] [] (some (SkTextBlob.mk 0)) 0 0
      (Sum.inl (SkPaint.mk 0)) = Except.error PaintErr.badVariantAccess := by
  rfl

/-- C3 amended: `drawTextBlob` and `drawRect` handle only the palette-index
alternative of the paint-or-identifier argument: a palette index in bounds is
resolved and the primitive is reissued with the corresponding palette paint,
while an immediate paint description makes `std::get<PaintID>` fail
(`std::bad_variant_access`) and nothing is issued. -/
theorem draw_calls_resolve_palette_index (dl_paints : List DlPaint)
    (builder : DlBuilder) (b : SkTextBlob) (rect : SkRect) (x y : SkScalar)
    (p : SkPaint) (i : ℕ) (h : i < dl_paints.length) :
    DisplayListParagraphPainter.drawTextBlob dl_paints builder (some b) x y
        (Sum.inr i) =
      Except.ok (builder ++ [DlOp.drawTextBlob b x y (dl_paints.get ⟨i, h⟩)]) ∧
    DisplayListParagraphPainter.drawRect dl_paints builder rect (Sum.inr i) =
      Except.ok (builder ++ [DlOp.drawRect rect (dl_paints.get ⟨i, h⟩)]) ∧
    DisplayListParagraphPainter.drawTextBlob dl_paints builder (some b) x y
        (Sum.inl p) = Except.error PaintErr.badVariantAccess ∧
    DisplayListParagraphPainter.drawRect dl_paints builder rect (Sum.inl p) =
      Except.error PaintErr.badVariantAccess := by
  refine ⟨?_, ?_, rfl, rfl⟩
  · simp [DisplayListParagraphPainter.drawTextBlob, stdGetPaintID, h]
  · simp [DisplayListParagraphPainter.drawRect, stdGetPaintID, h]

/-- Witness for the amended C3 on a concrete one-element palette. -/
theorem draw_calls_resolve_palette_index_witness :
    DisplayListParagraphPainter.drawTextBlob [DlPaint.mkDefault] []
        (some (SkTextBlob.mk 1)) 2 3 (Sum.inr 0) =
      Except.ok [DlOp.drawTextBlob (SkTextBlob.mk 1) 2 3
        ([DlPaint.mkDefault].get ⟨0, by decide⟩)] :=
  (draw_calls_resolve_palette_index [DlPaint.mkDefault] [] (SkTextBlob.mk 1)
    (SkRect.mk 0 0 1 1) 2 3 (SkPaint.mk 0) 0 (by decide)).1

/-- C5: the paint built by `toDlPaint` carries exactly the decoration's color
and stroke width, and a dash path effect (with the decoration's on-length and
off-length as its intervals) if and only if the decoration specifies one; the
paint built by `drawTextShadow` carries the given color and a blur mask
filter if and only if `blur_sigma > 0`, and is the paint of the issued
command. -/
theorem toDlPaint_and_shadow_paint_spec (decor : DecorationStyle)
    (ds : DlDrawStyle) (builder : DlBuilder) (b : SkTextBlob)
    (x y : SkScalar) (color : SkColor) (blur_sigma : SkScalar) :
    (DisplayListParagraphPainter.toDlPaint decor ds).color = decor.getColor ∧
    (DisplayListParagraphPainter.toDlPaint decor ds).strokeWidth =
      decor.getStrokeWidth ∧
    (DisplayListParagraphPainter.toDlPaint decor ds).drawStyle = ds ∧
    (DisplayListParagraphPainter.toDlPaint decor ds).antiAlias = true ∧
    ((DisplayListParagraphPainter.toDlPaint decor ds).pathEffect =
      Option.map
        (fun d => DlDashPathEffect.Make [d.fOnLength, d.fOffLength] 0)
        decor.getDashPathEffect) ∧
    (DisplayListParagraphPainter.drawTextShadowPaint color blur_sigma).color =
      color ∧
    ((DisplayListParagraphPainter.drawTextShadowPaint color blur_sigma).maskFilter =
      if blur_sigma > 0 then
        some (DlBlurMaskFilter.mk SkBlurStyle.kNormal_SkBlurStyle blur_sigma false)
      else none) ∧
    DisplayListParagraphPainter.drawTextShadow builder (some b) x y color
        blur_sigma =
      builder ++ [DlOp.drawTextBlob b x y
        (DisplayListParagraphPainter.drawTextShadowPaint color blur_sigma)] := by
  refine ⟨?_, ?_, ?_, ?_, ?_, ?_, ?_, rfl⟩ <;>
    simp only [DisplayListParagraphPainter.toDlPaint,
      DisplayListParagraphPainter.drawTextShadowPaint, DlPaint.setDrawStyle,
      DlPaint.setAntiAlias, DlPaint.setColor, DlPaint.setStrokeWidth,
      DlPaint.setPathEffect, DlPaint.setMaskFilter, DlPaint.mkDefault] <;>
    cases hd : decor.getDashPathEffect <;>
    first
      | (split_ifs <;> simp_all)
      | simp_all

/-- C10: a null text blob makes `drawTextBlob` and `drawTextShadow` return
immediately: no command is issued and the builder is unchanged. -/
theorem null_blob_noop (dl_paints : List DlPaint) (builder : DlBuilder)
    (x y : SkScalar) (paint : SkPaintOrID) (color : SkColor)
    (blur_sigma : SkScalar) :
    DisplayListParagraphPainter.drawTextBlob dl_paints builder none x y paint =
      Except.ok builder ∧
    DisplayListParagraphPainter.drawTextShadow builder none x y color
      blur_sigma = builder :=
  ⟨rfl, rfl⟩

/-! ## Concrete sample data used by witnesses and counterexamples -/

/-- A concrete `skt::TextStyle` with neither background nor foreground. -/
def plainSktStyle : SktTextStyle :=
  ⟨0xFF112233, 1, 0xFF445566, 2, 1, ⟨400, Slant.kItalic_Slant⟩, 0,
   ["Roboto"], 14, 0, 0, 1, "en", none, none, [⟨⟨1, 2⟩, 3, 0xFF000000⟩]⟩

/-- `plainSktStyle` with its background given as palette index 0. -/
def paletteSktStyle : SktTextStyle :=
  { plainSktStyle with background := some (Sum.inr 0) }

/-- `plainSktStyle` with its background given as palette index 5 (out of
range for any palette shorter than 6 entries). -/
def oobSktStyle : SktTextStyle :=
  { plainSktStyle with background := some (Sum.inr 5) }

/-- A concrete wrapped-paragraph interface over the trivial paragraph type
`Unit`: fixed metric values, no lines, layout a no-op. -/
def unitApi : SktParagraphApi Unit :=
  ⟨fun _ => 1, fun _ => 2, fun _ => 3, fun _ => 4, fun _ => 5, fun _ => 6,
   fun _ => 7, fun _ => false, fun _ => [], fun p _ => p⟩

/-! ## Theorems for claims C4, C6, C1, C7, C9 -/

/-- Counterexample to C4: the palette access in `SkiaToTxt`'s background
conversion (line 308) is not guarded by any debug assertion.  On an empty
palette and a style whose background is palette index 5, the conversion
performs the out-of-range unchecked access (undefined behaviour); no
`FML_DCHECK` fires. -/
theorem skiaToTxt_palette_access_unguarded :
    SkiaToTxt [] oobSktStyle = Except.error PaintErr.indexOutOfRange ∧
    SkiaToTxt [] oobSktStyle ≠ Except.error PaintErr.dcheckFailed := by
  refine ⟨rfl, ?_⟩
  intro h
  rw [show SkiaToTxt [] oobSktStyle = Except.error PaintErr.indexOutOfRange
    from rfl] at h
  exact absurd (Except.error.inj h) (by decide)

/-- C4 amended: the palette accesses in `drawTextBlob` and `drawRect` are
guarded by `FML_DCHECK(paint_id < dl_paints_.size())`, so there an
out-of-range index fails the assertion; the palette accesses in `SkiaToTxt`'s
foreground/background conversion are unguarded.  Under the precondition that
every paint index is within the palette's bounds, none of these operations
performs an out-of-range access (each succeeds). -/
theorem palette_access_guards (dl_paints : List DlPaint) (builder : DlBuilder)
    (b : SkTextBlob) (rect : SkRect) (x y : SkScalar) (i : ℕ)
    (skia : SktTextStyle) :
    (dl_paints.length ≤ i →
      DisplayListParagraphPainter.drawTextBlob dl_paints builder (some b) x y
          (Sum.inr i) = Except.error PaintErr.dcheckFailed ∧
      DisplayListParagraphPainter.drawRect dl_paints builder rect
          (Sum.inr i) = Except.error PaintErr.dcheckFailed) ∧
    (i < dl_paints.length →
      (∃ ops, DisplayListParagraphPainter.drawTextBlob dl_paints builder
          (some b) x y (Sum.inr i) = Except.ok ops) ∧
      (∃ ops, DisplayListParagraphPainter.drawRect dl_paints builder rect
          (Sum.inr i) = Except.ok ops)) ∧
    ((∀ j, skia.background = some (Sum.inr j) → j < dl_paints.length) →
     (∀ j, skia.foreground = some (Sum.inr j) → j < dl_paints.length) →
      ∃ t, SkiaToTxt dl_paints skia = Except.ok t) := by
  refine ⟨?_, ?_, ?_⟩
  · intro hle
    constructor <;>
      simp [DisplayListParagraphPainter.drawTextBlob,
        DisplayListParagraphPainter.drawRect, stdGetPaintID,
        Nat.not_lt.mpr hle]
  · intro hlt
    refine ⟨⟨builder ++ [DlOp.drawTextBlob b x y (dl_paints.get ⟨i, hlt⟩)], ?_⟩,
            ⟨builder ++ [DlOp.drawRect rect (dl_paints.get ⟨i, hlt⟩)], ?_⟩⟩ <;>
      simp [DisplayListParagraphPainter.drawTextBlob,
        DisplayListParagraphPainter.drawRect, stdGetPaintID, hlt]
  · intro hbg hfg
    have hu : ∀ pid : Option SkPaintOrID,
        (∀ j, pid = some (Sum.inr j) → j < dl_paints.length) →
        ∃ u, convertPaintOrID dl_paints pid = Except.ok u := by
      intro pid hin
      rcases pid with _ | pv
      · exact ⟨(none, none), rfl⟩
      · rcases pv with p | j
        · exact ⟨(some p, none), rfl⟩
        · have hj := hin j rfl
          refine ⟨(none, some (dl_paints.get ⟨j, hj⟩)), ?_⟩
          simp [convertPaintOrID, vectorAt, hj, Bind.bind, Except.bind]
    obtain ⟨u, hub⟩ := hu skia.background hbg
    obtain ⟨v, huf⟩ := hu skia.foreground hfg
    unfold SkiaToTxt
    rw [hub, huf]
    exact ⟨_, rfl⟩

/-- Witness for the amended C4: on a one-entry palette, index 1 fails the
`FML_DCHECK` in `drawTextBlob`, while `SkiaToTxt` with background index 0
(in bounds) succeeds. -/
theorem palette_access_guards_witness :
    DisplayListParagraphPainter.drawTextBlob [DlPaint.mkDefault] []
        (some (SkTextBlob.mk 2)) 0 0 (Sum.inr 1) =
      Except.error PaintErr.dcheckFailed ∧
    (∃ t, SkiaToTxt [DlPaint.mkDefault] paletteSktStyle = Except.ok t) :=
  ⟨((palette_access_guards [DlPaint.mkDefault] [] (SkTextBlob.mk 2)
      (SkRect.mk 0 0 1 1) 0 0 1 paletteSktStyle).1 (by decide)).1,
   (palette_access_guards [DlPaint.mkDefault] [] (SkTextBlob.mk 2)
      (SkRect.mk 0 0 1 1) 0 0 1 paletteSktStyle).2.2
     (fun j hj => by
        have h0 : (Sum.inr 0 : SkPaintOrID) = Sum.inr j := Option.some.inj hj
        have h1 : (0 : ℕ) = j := Sum.inr.inj h0
        subst h1
        decide)
     (fun j hj => by simp [paletteSktStyle, plainSktStyle] at hj)⟩

/-- C6: each geometry/metrics query of `ParagraphSkia` returns exactly the
wrapped paragraph's corresponding value converted by `SkScalarToDouble`, and
leaves the wrapper state unchanged. -/
theorem metrics_getters_passthrough {P : Type} (api : SktParagraphApi P)
    (s : ParagraphSkia P) :
    ParagraphSkia.GetMaxWidth api s =
      (SkScalarToDouble (api.getMaxWidth s.paragraph_), s) ∧
    ParagraphSkia.GetHeight api s =
      (SkScalarToDouble (api.getHeight s.paragraph_), s) ∧
    ParagraphSkia.GetLongestLine api s =
      (SkScalarToDouble (api.getLongestLine s.paragraph_), s) ∧
    ParagraphSkia.GetMinIntrinsicWidth api s =
      (SkScalarToDouble (api.getMinIntrinsicWidth s.paragraph_), s) ∧
    ParagraphSkia.GetMaxIntrinsicWidth api s =
      (SkScalarToDouble (api.getMaxIntrinsicWidth s.paragraph_), s) ∧
    ParagraphSkia.GetAlphabeticBaseline api s =
      (SkScalarToDouble (api.getAlphabeticBaseline s.paragraph_), s) ∧
    ParagraphSkia.GetIdeographicBaseline api s =
      (SkScalarToDouble (api.getIdeographicBaseline s.paragraph_), s) :=
  ⟨rfl, rfl, rfl, rfl, rfl, rfl, rfl⟩

/-- C1: the metrics cache and the auxiliary style store move in lockstep.
`Layout` resets both in the same operation (and construction starts both
empty); a `GetLineMetrics` call in the invalidated state recomputes both from
scratch from the wrapped paragraph and fills both; a call in the filled state
changes neither.  No operation updates one without the other. -/
theorem cache_and_styles_lockstep {P : Type} (api : SktParagraphApi P)
    (s : ParagraphSkia P) (width : ℚ) (p : P) (paints : List DlPaint) :
    ((ParagraphSkia.Layout api s width).line_metrics_ = none ∧
     (ParagraphSkia.Layout api s width).line_metrics_styles_ = []) ∧
    ((ParagraphSkia.create p paints : ParagraphSkia P).line_metrics_ = none ∧
     (ParagraphSkia.create p paints : ParagraphSkia P).line_metrics_styles_ =
       []) ∧
    (s.line_metrics_ = none → s.line_metrics_styles_ = [] →
      ∀ lm s1, ParagraphSkia.GetLineMetrics api s = Except.ok (lm, s1) →
        ∃ res, convertLines s.dl_paints_ []
            (api.getLineMetrics s.paragraph_) = Except.ok res ∧
          s1.line_metrics_ = some res.2 ∧
          s1.line_metrics_styles_ = res.1 ∧ lm = res.2) ∧
    (∀ cached, s.line_metrics_ = some cached →
      ParagraphSkia.GetLineMetrics api s = Except.ok (cached, s)) := by
  refine ⟨⟨rfl, rfl⟩, ⟨rfl, rfl⟩, ?_, ?_⟩
  · intro hnone hsty lm s1 h
    simp only [ParagraphSkia.GetLineMetrics, hnone, hsty] at h
    cases hc : convertLines s.dl_paints_ [] (api.getLineMetrics s.paragraph_)
      with
    | error e => simp [hc, Bind.bind, Except.bind] at h
    | ok res =>
        simp only [hc, Bind.bind, Except.bind, Except.ok.injEq,
          Prod.mk.injEq] at h
        exact ⟨res, rfl, by rw [← h.2], by rw [← h.2], h.1.symm⟩
  · intro cached hsome
    simp [ParagraphSkia.GetLineMetrics, hsome]

/-- Witness for C1 on the trivial paragraph: after `Layout` both members are
empty, and the first `GetLineMetrics` fills both from the (empty) computed
metrics. -/
theorem cache_and_styles_lockstep_witness :
    ∃ res, convertLines [] [] (unitApi.getLineMetrics ()) = Except.ok res ∧
      (ParagraphSkia.mk () [] (some []) [] 1).line_metrics_ = some res.2 ∧
      (ParagraphSkia.mk () [] (some []) [] 1).line_metrics_styles_ = res.1 ∧
      ([] : List LineMetrics) = res.2 :=
  (cache_and_styles_lockstep unitApi (ParagraphSkia.create () []) 10 ()
    []).2.2.1 rfl rfl [] (ParagraphSkia.mk () [] (some []) [] 1) rfl

/-- C7: `GetLineMetrics` is lazily memoized with single-slot full
invalidation.  In the invalidated state (after construction or `Layout`,
whose cache member is `none`) a successful call queries the wrapped paragraph
exactly once and fills the cache with its result; any successful call leaves
a state in which calling again returns the same metrics and the identical
state — in particular without querying the wrapped paragraph again (the query
counter is unchanged), so two calls in a row equal one call. -/
theorem getLineMetrics_memoized {P : Type} (api : SktParagraphApi P)
    (s : ParagraphSkia P) (width : ℚ) (p : P) (paints : List DlPaint) :
    (s.line_metrics_ = none →
      ∀ lm s1, ParagraphSkia.GetLineMetrics api s = Except.ok (lm, s1) →
        s1.metricsQueries = s.metricsQueries + 1 ∧
        s1.line_metrics_ = some lm) ∧
    (∀ lm s1, ParagraphSkia.GetLineMetrics api s = Except.ok (lm, s1) →
      ParagraphSkia.GetLineMetrics api s1 = Except.ok (lm, s1)) ∧
    ((ParagraphSkia.Layout api s width).line_metrics_ = none) ∧
    ((ParagraphSkia.create p paints : ParagraphSkia P).line_metrics_ =
      none) := by
  refine ⟨?_, ?_, rfl, rfl⟩
  · intro hnone lm s1 h
    simp only [ParagraphSkia.GetLineMetrics, hnone] at h
    cases hc : convertLines s.dl_paints_ s.line_metrics_styles_
        (api.getLineMetrics s.paragraph_) with
    | error e => simp [hc, Bind.bind, Except.bind] at h
    | ok res =>
        simp only [hc, Bind.bind, Except.bind, Except.ok.injEq,
          Prod.mk.injEq] at h
        refine ⟨by rw [← h.2], ?_⟩
        rw [← h.2, ← h.1]
  · intro lm s1 h
    cases hmem : s.line_metrics_ with
    | some cached =>
        simp only [ParagraphSkia.GetLineMetrics, hmem, Except.ok.injEq,
          Prod.mk.injEq] at h
        rw [← h.2]
        simp [ParagraphSkia.GetLineMetrics, hmem, h.1]
    | none =>
        simp only [ParagraphSkia.GetLineMetrics, hmem] at h
        cases hc : convertLines s.dl_paints_ s.line_metrics_styles_
            (api.getLineMetrics s.paragraph_) with
        | error e => simp [hc, Bind.bind, Except.bind] at h
        | ok res =>
            simp only [hc, Bind.bind, Except.bind, Except.ok.injEq,
              Prod.mk.injEq] at h
            rw [← h.2]
            simp [ParagraphSkia.GetLineMetrics, ← h.1]

/-- Witness for C7 on the trivial paragraph: the first call counts one query
of the wrapped paragraph and fills the cache; repeating the call is the
identity. -/
theorem getLineMetrics_memoized_witness :
    ((ParagraphSkia.mk () [] (some []) [] 1).metricsQueries =
        (ParagraphSkia.create () [] : ParagraphSkia Unit).metricsQueries + 1 ∧
      (ParagraphSkia.mk () [] (some []) [] 1).line_metrics_ =
        some ([] : List LineMetrics)) ∧
    ParagraphSkia.GetLineMetrics unitApi (ParagraphSkia.mk () [] (some []) [] 1) =
      Except.ok ([], ParagraphSkia.mk () [] (some []) [] 1) :=
  ⟨(getLineMetrics_memoized unitApi (ParagraphSkia.create () []) 10 ()
      []).1 rfl [] (ParagraphSkia.mk () [] (some []) [] 1) rfl,
   (getLineMetrics_memoized unitApi (ParagraphSkia.create () []) 10 ()
      []).2.1 [] (ParagraphSkia.mk () [] (some []) [] 1) rfl⟩

/-- C9: `SkiaToTxt` is pure and deterministic.  Its result depends only on
the input `skt::TextStyle` and the paint palette `dl_paints_` — two wrapper
states with equal palettes (over possibly different wrapped paragraphs,
caches and counters) produce equal converted styles for equal inputs — and
the call leaves the wrapper state (hence the wrapped paragraph) unchanged;
the input style is a value, never written. -/
theorem skiaToTxt_pure_deterministic {P Q : Type} (s1 : ParagraphSkia P)
    (s2 : ParagraphSkia Q) (sk1 sk2 : SktTextStyle)
    (hpal : s1.dl_paints_ = s2.dl_paints_) (hsk : sk1 = sk2) :
    (ParagraphSkia.SkiaToTxtM s1 sk1).1 = (ParagraphSkia.SkiaToTxtM s2 sk2).1 ∧
    (ParagraphSkia.SkiaToTxtM s1 sk1).2 = s1 ∧
    (ParagraphSkia.SkiaToTxtM s2 sk2).2 = s2 := by
  subst hsk
  exact ⟨by simp [ParagraphSkia.SkiaToTxtM, hpal], rfl, rfl⟩

/-- Witness for C9: two wrapper states sharing a palette but differing in
wrapped-paragraph type, cache contents and query counter convert
`plainSktStyle` identically, and the state is returned unchanged. -/
theorem skiaToTxt_pure_deterministic_witness :
    (ParagraphSkia.SkiaToTxtM
        (ParagraphSkia.mk () [DlPaint.mkDefault] none [] 0) plainSktStyle).1 =
      (ParagraphSkia.SkiaToTxtM
        (ParagraphSkia.mk false [DlPaint.mkDefault] (some []) [] 7)
        plainSktStyle).1 ∧
    (ParagraphSkia.SkiaToTxtM
        (ParagraphSkia.mk () [DlPaint.mkDefault] none [] 0) plainSktStyle).2 =
      ParagraphSkia.mk () [DlPaint.mkDefault] none [] 0 :=
  ⟨(skiaToTxt_pure_deterministic
      (ParagraphSkia.mk () [DlPaint.mkDefault] none [] 0)
      (ParagraphSkia.mk false [DlPaint.mkDefault] (some []) [] 7)
      plainSktStyle plainSktStyle rfl rfl).1,
   (skiaToTxt_pure_deterministic
      (ParagraphSkia.mk () [DlPaint.mkDefault] none [] 0)
      (ParagraphSkia.mk false [DlPaint.mkDefault] (some []) [] 7)
      plainSktStyle plainSktStyle rfl rfl).2.1⟩

end ParagraphSkiaCc
